import Mathlib

/-
Verification of the client-side session/data synchronization logic of the
supabase-app repository (src/src/App.jsx, src/unnamed/part_000,
src/unnamed/part_001) against its specification.

The three source files are near-duplicate variants of one React component.
Each event handler is embedded as a pure function from the component state
(the useState cells) and the results of the remote calls it awaits to the
new state together with its observable outputs (console log, alert dialog,
issued remote requests).
-/

namespace SupabaseApp

/-- One row of the instruments table: identifier, display name, owning user. -/
structure Row where
  id : Nat
  name : String
  user_id : Nat
  deriving DecidableEq, Repr

/-- A live-update notification delivered on the postgres_changes channel.
insert and update carry payload.new; delete carries payload.old.id. -/
inductive ChangeEvent where
  | insert (r : Row)
  | update (r : Row)
  | delete (oldId : Nat)
  deriving DecidableEq, Repr

/-- The realtime payload handler of part_001 lines 52-66 (identical in
part_000 lines 662-679): INSERT appends payload.new to prev unconditionally,
DELETE keeps the items whose id differs from payload.old.id, UPDATE maps each
item to payload.new when the ids match and keeps it otherwise. -/
def applyChange (prev : List Row) : ChangeEvent → List Row
  | .insert r => prev ++ [r]
  | .delete oldId => prev.filter fun item => item.id ≠ oldId
  | .update r => prev.map fun item => if item.id = r.id then r else item

/-- Modelled from the spec: the idealized replay operations of the testable
properties section — insert-if-absent, replace-by-id, remove-by-id — used as
the refinement target the handler is compared against. -/
def specApplyChange (prev : List Row) : ChangeEvent → List Row
  | .insert r => if prev.any (fun item => item.id = r.id) then prev else prev ++ [r]
  | .delete oldId => prev.filter fun item => item.id ≠ oldId
  | .update r => prev.map fun item => if item.id = r.id then r else item

/-- The identifiers carried by the insert notifications of a sequence. -/
def insertIds (evs : List ChangeEvent) : List Nat :=
  evs.filterMap fun e => match e with
    | .insert r => some r.id
    | _ => none

lemma foldl_applyChange_eq_spec (evs : List ChangeEvent) :
    ∀ cache : List Row, (insertIds evs).Nodup →
      (∀ x ∈ cache, x.id ∉ insertIds evs) →
      List.foldl applyChange cache evs = List.foldl specApplyChange cache evs := by
  induction evs with
  | nil => intro cache _ _; rfl
  | cons e rest ih =>
    intro cache hnd hdis
    cases e with
    | insert r =>
      have hnd2 : (r.id :: insertIds rest).Nodup := hnd
      have hr : r.id ∉ insertIds rest := (List.nodup_cons.mp hnd2).1
      have hnd' : (insertIds rest).Nodup := (List.nodup_cons.mp hnd2).2
      have hcne : ∀ x ∈ cache, x.id ≠ r.id ∧ x.id ∉ insertIds rest := by
        intro x hx
        have h : x.id ∉ r.id :: insertIds rest := hdis x hx
        rw [List.mem_cons] at h
        push_neg at h
        exact h
      have hany : cache.any (fun item => item.id = r.id) = false := by
        rw [List.any_eq_false]
        intro x hx
        simpa using (hcne x hx).1
      rw [List.foldl_cons, List.foldl_cons]
      have hspec : specApplyChange cache (.insert r) = cache ++ [r] := by
        simp [specApplyChange, hany]
      rw [show applyChange cache (.insert r) = cache ++ [r] from rfl, hspec]
      apply ih (cache ++ [r]) hnd'
      intro x hx
      rcases List.mem_append.mp hx with hx1 | hx2
      · exact (hcne x hx1).2
      · rw [List.mem_singleton] at hx2
        subst hx2
        exact hr
    | update r =>
      have hnd' : (insertIds rest).Nodup := hnd
      rw [List.foldl_cons, List.foldl_cons]
      show List.foldl applyChange
          (cache.map fun item => if item.id = r.id then r else item) rest
        = List.foldl specApplyChange
          (cache.map fun item => if item.id = r.id then r else item) rest
      apply ih _ hnd'
      intro x hx
      rcases List.mem_map.mp hx with ⟨y, hy, hxy⟩
      have hxid : x.id = y.id := by
        by_cases hyr : y.id = r.id
        · rw [← hxy, if_pos hyr]; exact hyr.symm
        · rw [← hxy, if_neg hyr]
      rw [hxid]
      exact hdis y hy
    | delete oldId =>
      have hnd' : (insertIds rest).Nodup := hnd
      rw [List.foldl_cons, List.foldl_cons]
      show List.foldl applyChange (cache.filter fun item => item.id ≠ oldId) rest
        = List.foldl specApplyChange (cache.filter fun item => item.id ≠ oldId) rest
      apply ih _ hnd'
      intro x hx
      exact hdis x (List.mem_of_mem_filter hx)

/-- A sample notification sequence whose insert identifiers are distinct. -/
def demoEvents : List ChangeEvent :=
  [.insert ⟨1, "guitar", 7⟩, .insert ⟨2, "drums", 7⟩,
   .update ⟨1, "violin", 7⟩, .delete 2]

/-- C1 counterexample: the handler insert branch appends unconditionally —
an insert notification whose identifier is already present in the cache adds
a second element, where the insert-if-absent replay operation would leave the
cache unchanged. -/
theorem C1_insert_duplicates_counterexample :
    applyChange [⟨1, "guitar", 7⟩] (ChangeEvent.insert ⟨1, "piano", 7⟩)
      = [⟨1, "guitar", 7⟩, ⟨1, "piano", 7⟩] ∧
    specApplyChange [⟨1, "guitar", 7⟩] (ChangeEvent.insert ⟨1, "piano", 7⟩)
      = [⟨1, "guitar", 7⟩] ∧
    ([ (⟨1, "guitar", 7⟩ : Row), ⟨1, "piano", 7⟩ ] : List Row).length = 2 := by
  refine ⟨rfl, by decide, rfl⟩

/-- C1 (amended): replaying a sequence of notifications whose insert events
carry pairwise-distinct identifiers on an initially-empty cache with the
handler branches yields the same ordered collection as the idealized
insert-if-absent / replace-by-id / remove-by-id replay. (The unconditional
append coincides with insert-if-absent there because an inserted identifier
can never already be present; on a cache that does already hold the
identifier the handler appends a duplicate — see the counterexample.) -/
theorem C1_handler_eq_spec_replay (evs : List ChangeEvent)
    (h : (insertIds evs).Nodup) :
    List.foldl applyChange [] evs = List.foldl specApplyChange [] evs :=
  foldl_applyChange_eq_spec evs [] h (fun x hx => absurd hx (List.not_mem_nil x))

/-- C1 witness: the equivalence evaluated on a concrete sequence. -/
theorem C1_handler_eq_spec_replay_witness :
    List.foldl applyChange [] demoEvents = List.foldl specApplyChange [] demoEvents :=
  C1_handler_eq_spec_replay demoEvents (by decide)

lemma map_update_of_no_match (cache : List Row) (r : Row)
    (hu : ∀ x ∈ cache, x.id ≠ r.id) :
    (cache.map fun item => if item.id = r.id then r else item) = cache := by
  induction cache with
  | nil => rfl
  | cons a as ih =>
    have ha : a.id ≠ r.id := hu a (by simp)
    have has : ∀ x ∈ as, x.id ≠ r.id := fun x hx => hu x (by simp [hx])
    simp only [List.map_cons, if_neg ha, ih has]

lemma filter_delete_of_no_match (cache : List Row) (d : Nat)
    (hd : ∀ x ∈ cache, x.id ≠ d) :
    (cache.filter fun item => item.id ≠ d) = cache := by
  induction cache with
  | nil => rfl
  | cons a as ih =>
    have ha : a.id ≠ d := hd a (by simp)
    have has : ∀ x ∈ as, x.id ≠ d := fun x hx => hd x (by simp [hx])
    simp [List.filter_cons, ha, ih has]
    intro x hx
    exact has x hx

/-- C8: an update notification matching no cached row leaves the cache
unchanged (it never inserts), a delete notification matching no cached row
leaves the cache unchanged, and an update preserves the cache length and
leaves every non-matching row in place at its position. -/
theorem C8_unmatched_update_delete_frame (cache : List Row) (r : Row) (d : Nat)
    (r2 : Row) (hu : ∀ x ∈ cache, x.id ≠ r.id) (hd : ∀ x ∈ cache, x.id ≠ d) :
    applyChange cache (.update r) = cache ∧
    applyChange cache (.delete d) = cache ∧
    (applyChange cache (.update r2)).length = cache.length ∧
    (∀ i : Nat, ∀ x : Row, cache[i]? = some x → x.id ≠ r2.id →
      (applyChange cache (.update r2))[i]? = some x) := by
  refine ⟨map_update_of_no_match cache r hu, filter_delete_of_no_match cache d hd,
    List.length_map _ _, ?_⟩
  intro i x hx hne
  show (cache.map fun item => if item.id = r2.id then r2 else item)[i]? = some x
  rw [List.getElem?_map, hx]
  show some (if x.id = r2.id then r2 else x) = some x
  rw [if_neg hne]

/-- C8 witness: the frame properties evaluated on a one-element cache. -/
theorem C8_unmatched_update_delete_frame_witness :
    applyChange [⟨1, "cello", 7⟩] (ChangeEvent.update ⟨2, "harp", 7⟩)
      = [⟨1, "cello", 7⟩] ∧
    applyChange [⟨1, "cello", 7⟩] (ChangeEvent.delete 3) = [⟨1, "cello", 7⟩] ∧
    (applyChange [⟨1, "cello", 7⟩] (ChangeEvent.update ⟨1, "oboe", 7⟩)).length = 1 :=
  have h := C8_unmatched_update_delete_frame [⟨1, "cello", 7⟩] ⟨2, "harp", 7⟩ 3
    ⟨1, "oboe", 7⟩ (by decide) (by decide)
  ⟨h.1, h.2.1, h.2.2.1⟩

/-- The useState cells of the App component. part_001 has no loading cell;
its render function simply never reads it. -/
structure AppState where
  email : String
  password : String
  user : Option Nat
  instrumentName : String
  instruments : List Row
  avatarUrl : Option String
  uploading : Bool
  loading : Bool
  deriving DecidableEq, Repr

/-- Result of a remote write call carrying only a possible error. -/
inductive WriteResult where
  | ok
  | err (msg : String)
  deriving DecidableEq, Repr

/-- Result of the instruments bulk read (select * filtered by user_id). -/
inductive ReadRowsResult where
  | ok (rows : List Row)
  | err (msg : String)
  deriving DecidableEq, Repr

/-- Result of the profile read of avatar_url; success may carry a null path. -/
inductive ProfileReadResult where
  | ok (avatarPath : Option String)
  | err (msg : String)
  deriving DecidableEq, Repr

/-- A remote request issued by a handler. -/
inductive RemoteAction where
  | getSession
  | subscribeAuth
  | signInWithPassword
  | signOutCall
  | insertRow (name : String) (uid : Nat)
  | storageUpload (path : String)
  | profileUpsert (uid : Nat) (path : String)
  | getPublicUrlOf (path : String)
  | redirect (url : String)
  deriving DecidableEq, Repr

/-- The outcome of running one handler: new state, console output, alert
dialog, and the remote requests it issued. -/
structure StepOut where
  state : AppState
  log : Option String
  alert : Option String
  actions : List RemoteAction
  deriving DecidableEq, Repr

/-- supabase.storage.from(avatars).getPublicUrl(path).data.publicUrl —
a deterministic public URL for a stored path. -/
def getPublicUrl (path : String) : String :=
  "https://example.supabase.co/storage/v1/object/public/avatars/" ++ path

/-- fetchInstruments (part_001 lines 74-82; App.jsx lines 51-59): on error,
console.error the message and leave the state alone; on success replace the
instruments cache wholesale with the returned rows. -/
def fetchInstruments (s : AppState) (res : ReadRowsResult) : StepOut :=
  match res with
  | .err m => ⟨s, some ("Error fetching instruments: " ++ m), none, []⟩
  | .ok rows => ⟨{ s with instruments := rows }, none, none, []⟩

/-- fetchProfile of App.jsx lines 62-82: on error console.warn and return
(avatarUrl untouched); on success, if avatar_url is truthy resolve and publish
its public URL, otherwise setAvatarUrl(null). -/
def fetchProfile_app (s : AppState) (res : ProfileReadResult) : StepOut :=
  match res with
  | .err m => ⟨s, some ("No profile found: " ++ m), none, []⟩
  | .ok none => ⟨{ s with avatarUrl := none }, none, none, []⟩
  | .ok (some p) =>
      if p = "" then ⟨{ s with avatarUrl := none }, none, none, []⟩
      else ⟨{ s with avatarUrl := some (getPublicUrl p) },
            none, none, [.getPublicUrlOf p]⟩

/-- fetchProfile of part_001 lines 84-97: only the branch where the read
succeeded and avatar_url is truthy does anything; there is no else and no
error handling, so every other case leaves the state alone. -/
def fetchProfile_part001 (s : AppState) (res : ProfileReadResult) : StepOut :=
  match res with
  | .ok (some p) =>
      if p = "" then ⟨s, none, none, []⟩
      else ⟨{ s with avatarUrl := some (getPublicUrl p) },
            none, none, [.getPublicUrlOf p]⟩
  | _ => ⟨s, none, none, []⟩

/-- fetchAvatar of part_000 lines 698-716: returns immediately when no user
is set; otherwise publishes the resolved URL when the read succeeded and
avatar_url is truthy, and setAvatarUrl(null) in every other case. -/
def fetchAvatar_part000 (s : AppState) (res : ProfileReadResult) : StepOut :=
  if s.user = none then ⟨s, none, none, []⟩
  else
    match res with
    | .ok (some p) =>
        if p = "" then ⟨{ s with avatarUrl := none }, none, none, []⟩
        else ⟨{ s with avatarUrl := some (getPublicUrl p) },
              none, none, [.getPublicUrlOf p]⟩
    | _ => ⟨{ s with avatarUrl := none }, none, none, []⟩

/-- handleLogin of App.jsx lines 85-98: setLoading(true), await
signInWithPassword, alert the error message when it fails, and in all cases
finally setLoading(false). It never touches user or instruments itself. -/
def handleLogin_app (s : AppState) (res : WriteResult) : StepOut :=
  match res with
  | .err m => ⟨{ s with loading := false }, none, some m, [.signInWithPassword]⟩
  | .ok => ⟨{ s with loading := false }, none, none, [.signInWithPassword]⟩

/-- handleLogin of part_001 lines 100-104: alert on failure, redirect on
success; no state cell is written. -/
def handleLogin_part001 (s : AppState) (res : WriteResult) : StepOut :=
  match res with
  | .err m => ⟨s, none, some ("Login failed: " ++ m), [.signInWithPassword]⟩
  | .ok => ⟨s, none, none,
      [.signInWithPassword,
       .redirect "https://stingray-app-5y3zr.ondigitalocean.app/"]⟩

/-- handleLogout of App.jsx lines 125-130: signOut, then clear user,
instruments and avatarUrl. -/
def handleLogout_app (s : AppState) : StepOut :=
  ⟨{ s with user := none, instruments := [], avatarUrl := none },
   none, none, [.signOutCall]⟩

/-- handleLogout of part_001 lines 113-117: signOut, then clear user and
instruments only — avatarUrl is not written. part_000 lines 745-751 is the
same: its setAvatarUrl(null) line is commented out. -/
def handleLogout_part001 (s : AppState) : StepOut :=
  ⟨{ s with user := none, instruments := [] }, none, none, [.signOutCall]⟩

/-- handleAddInstrument (App.jsx lines 133-140, identical in part_001 lines
119-126): return when the name field is empty (falsy); otherwise issue the
insert, alert on failure, and clear only the name field on success. -/
def handleAddInstrument (s : AppState) (uid : Nat) (res : WriteResult) : StepOut :=
  if s.instrumentName = "" then ⟨s, none, none, []⟩
  else
    match res with
    | .err m => ⟨s, none, some ("Error adding instrument: " ++ m),
        [.insertRow s.instrumentName uid]⟩
    | .ok => ⟨{ s with instrumentName := "" }, none, none,
        [.insertRow s.instrumentName uid]⟩

/-- The file chosen in the file-input change event, when one was chosen. -/
structure UploadFile where
  name : String
  deriving DecidableEq, Repr

/-- file.name.split(.).pop() — the extension of the chosen file name. -/
def fileExtOf (n : String) : String := (n.splitOn ".").getLastD ""

/-- handleAvatarUpload of App.jsx lines 143-176 (same control flow in
part_001 lines 128-157): setUploading(true); return when no file is chosen;
upload to storage at the per-user path, upsert the path into profiles,
resolve and publish the public URL — aborting with one alert at the first
failing step; finally setUploading(false) on every path. -/
def handleAvatarUpload_app (s : AppState) (uid : Nat) (file : Option UploadFile)
    (storageRes : WriteResult) (profileRes : WriteResult) : StepOut :=
  match file with
  | none => ⟨{ s with uploading := false }, none, none, []⟩
  | some f =>
    let filePath := toString uid ++ "." ++ fileExtOf f.name
    match storageRes with
    | .err m => ⟨{ s with uploading := false }, none,
        some ("Avatar upload failed: " ++ m), [.storageUpload filePath]⟩
    | .ok =>
      match profileRes with
      | .err m => ⟨{ s with uploading := false }, none,
          some ("Avatar upload failed: " ++ m),
          [.storageUpload filePath, .profileUpsert uid filePath]⟩
      | .ok =>
        ⟨{ s with avatarUrl := some (getPublicUrl filePath), uploading := false },
         none, none,
         [.storageUpload filePath, .profileUpsert uid filePath,
          .getPublicUrlOf filePath]⟩

/-- The initial useState values of App.jsx: everything empty or null,
uploading false, loading true. -/
def initialState : AppState :=
  { email := "", password := "", user := none, instrumentName := "",
    instruments := [], avatarUrl := none, uploading := false, loading := true }

/-- What the component renders: the loading indicator, the login screen, or
the dashboard. -/
inductive Screen where
  | loadingScreen
  | anonymous
  | authenticated
  deriving DecidableEq, Repr

/-- The render function of App.jsx lines 178-285: loading guard first, then
the login screen when user is null, else the dashboard. -/
def render_app (s : AppState) : Screen :=
  if s.loading then .loadingScreen
  else if s.user = none then .anonymous
  else .authenticated

/-- The render function of part_001 lines 160-241: no loading guard — the
login screen whenever user is null, else the dashboard. -/
def render_part001 (s : AppState) : Screen :=
  if s.user = none then .anonymous else .authenticated

/-- The asynchronous events that resolve the startup session fetch or
deliver a provider auth-state notification. -/
inductive AuthEvent where
  | sessionFetched (session : Option Nat)
  | authChange (session : Option Nat)
  deriving DecidableEq, Repr

/-- The session-tracking transitions of App.jsx lines 20-48: resolution of
getSession sets user and clears loading; an auth-state notification sets user
and clears loading, additionally clearing avatarUrl and instruments when the
session is gone (the session branch also issues fetchProfile and
fetchInstruments requests, whose results arrive as their own steps). -/
def authStep_app (s : AppState) : AuthEvent → AppState
  | .sessionFetched ss => { s with user := ss, loading := false }
  | .authChange (some u) => { s with user := some u, loading := false }
  | .authChange none =>
      { s with user := none, avatarUrl := none, instruments := [], loading := false }

/-- The remote requests issued by the body of the mount effect of App.jsx
lines 20-48: fetchUser() performs one getSession call, then the component
subscribes to auth-state changes. -/
def startupActions : List RemoteAction := [.getSession, .subscribeAuth]

lemma authStep_app_clears_loading (s : AppState) (e : AuthEvent) :
    (authStep_app s e).loading = false := by
  cases e with
  | sessionFetched ss => rfl
  | authChange ss => cases ss <;> rfl

lemma foldl_authStep_loading (evs : List AuthEvent) :
    ∀ s : AppState, s.loading = false →
      (List.foldl authStep_app s evs).loading = false := by
  induction evs with
  | nil => intro s h; exact h
  | cons e rest ih =>
    intro s _
    exact ih (authStep_app s e) (authStep_app_clears_loading s e)

/-- A concrete authenticated state used by the counterexamples. -/
def demoState : AppState :=
  { email := "", password := "", user := some 7, instrumentName := "",
    instruments := [], avatarUrl := none, uploading := false, loading := false }

/-- C2 counterexample: the part_001 (and part_000) handleLogout never writes
avatarUrl, so logging out with an avatar published leaves the URL present,
not absent. -/
theorem C2_logout_stale_avatar_counterexample :
    (handleLogout_part001
        { demoState with avatarUrl := some "https://stale.example/u1.png" }).state.avatarUrl
      = some "https://stale.example/u1.png" ∧
    some "https://stale.example/u1.png" ≠ (none : Option String) := by
  exact ⟨rfl, by decide⟩

/-- C2 (amended): logging out always empties the row cache and clears the
session in every variant; the App.jsx variant also clears the published
avatar URL, but the part_001/part_000 variant leaves the avatar URL exactly
as it was. -/
theorem C2_logout_clears_state (s : AppState) :
    (handleLogout_app s).state.instruments = [] ∧
    (handleLogout_app s).state.avatarUrl = none ∧
    (handleLogout_app s).state.user = none ∧
    (handleLogout_part001 s).state.instruments = [] ∧
    (handleLogout_part001 s).state.user = none ∧
    (handleLogout_part001 s).state.avatarUrl = s.avatarUrl :=
  ⟨rfl, rfl, rfl, rfl, rfl, rfl⟩

/-- C3 counterexample: a failing profile read in App.jsx returns before
touching avatarUrl, and in part_001 even a successful read with no stored
path does nothing — both keep the previously published URL. -/
theorem C3_stale_avatar_counterexample :
    (fetchProfile_app { demoState with avatarUrl := some "https://stale.example/u1.png" }
        (.err "no rows")).state.avatarUrl = some "https://stale.example/u1.png" ∧
    (fetchProfile_part001 { demoState with avatarUrl := some "https://stale.example/u1.png" }
        (.ok none)).state.avatarUrl = some "https://stale.example/u1.png" ∧
    some "https://stale.example/u1.png" ≠ (none : Option String) := by
  exact ⟨rfl, rfl, by decide⟩

/-- C3 (amended): in App.jsx a successful read with no stored path publishes
no-avatar, but a failing read leaves the previously published URL; in
part_001 both the failing read and the no-path read leave it; only the
part_000 fetchAvatar variant publishes no-avatar in both cases. -/
theorem C3_no_avatar_path_resolution (s : AppState) (m : String) (uid : Nat) :
    (fetchProfile_app s (.ok none)).state.avatarUrl = none ∧
    (fetchProfile_app s (.err m)).state.avatarUrl = s.avatarUrl ∧
    (fetchProfile_app s (.err m)).alert = none ∧
    (fetchProfile_part001 s (.err m)).state.avatarUrl = s.avatarUrl ∧
    (fetchProfile_part001 s (.ok none)).state.avatarUrl = s.avatarUrl ∧
    (fetchAvatar_part000 { s with user := some uid } (.err m)).state.avatarUrl = none ∧
    (fetchAvatar_part000 { s with user := some uid } (.ok none)).state.avatarUrl = none :=
  ⟨rfl, rfl, rfl, rfl, rfl, rfl, rfl⟩

/-- C4: when the storage write succeeds and the profile write fails, the
upload handler aborts before setAvatarUrl, so the published URL equals its
prior value, one failure alert is raised, and the uploading flag is false
afterwards. -/
theorem C4_profile_write_failure_keeps_avatar (s : AppState) (uid : Nat)
    (f : UploadFile) (m : String) :
    (handleAvatarUpload_app s uid (some f) .ok (.err m)).state.avatarUrl = s.avatarUrl ∧
    (handleAvatarUpload_app s uid (some f) .ok (.err m)).state.uploading = false ∧
    (handleAvatarUpload_app s uid (some f) .ok (.err m)).alert
      = some ("Avatar upload failed: " ++ m) :=
  ⟨rfl, rfl, rfl⟩

/-- C5: in the anonymous state with an empty row cache, a credentials
submission ending in an invalid-password error leaves the session absent,
raises a user-visible alert carrying the error message, and leaves the row
cache empty — in both the App.jsx and the part_001 login handler. -/
theorem C5_invalid_password_login (s : AppState) (m : String) :
    (handleLogin_app { s with user := none, instruments := [] }
        (.err m)).state.user = none ∧
    (handleLogin_app { s with user := none, instruments := [] }
        (.err m)).state.instruments = ([] : List Row) ∧
    (handleLogin_app { s with user := none, instruments := [] }
        (.err m)).alert = some m ∧
    (handleLogin_part001 { s with user := none, instruments := [] }
        (.err m)).state.user = none ∧
    (handleLogin_part001 { s with user := none, instruments := [] }
        (.err m)).state.instruments = ([] : List Row) ∧
    (handleLogin_part001 { s with user := none, instruments := [] }
        (.err m)).alert = some ("Login failed: " ++ m) :=
  ⟨rfl, rfl, rfl, rfl, rfl, rfl⟩

/-- C6 counterexample: a failing bulk read leaves the instruments cache
exactly as it was — invoked with a non-empty cache, the cache is non-empty
afterwards, not empty. -/
theorem C6_error_keeps_cache_counterexample :
    (fetchInstruments { demoState with instruments := [⟨1, "cello", 7⟩] }
        (.err "network down")).state.instruments = [⟨1, "cello", 7⟩] ∧
    ([(⟨1, "cello", 7⟩ : Row)] : List Row) ≠ ([] : List Row) := by
  exact ⟨rfl, by decide⟩

/-- C6 (amended): a failing bulk read is logged to the console only — no
alert — and leaves the whole state unchanged; in particular the cache stays
empty exactly when it was empty at the call (as on the login path, where it
was just cleared or initial). -/
theorem C6_read_error_silent_degrade (s : AppState) (m : String) :
    (fetchInstruments s (.err m)).log = some ("Error fetching instruments: " ++ m) ∧
    (fetchInstruments s (.err m)).alert = none ∧
    (fetchInstruments s (.err m)).state = s ∧
    (fetchInstruments { s with instruments := [] } (.err m)).state.instruments
      = ([] : List Row) :=
  ⟨rfl, rfl, rfl, rfl⟩

/-- C7 counterexample: the part_001 variant has no loading state — before the
startup session fetch resolves it already renders the unauthenticated mode,
not a loading indicator. -/
theorem C7_part001_no_loading_counterexample :
    render_part001 initialState = Screen.anonymous ∧
    Screen.anonymous ≠ Screen.loadingScreen := by
  exact ⟨rfl, by decide⟩

/-- C7 (amended): the App.jsx variant issues exactly one getSession request
at startup and renders the loading indicator in the initial state; the
loading flag is cleared only by the resolution of that fetch or an
auth-state notification, and once any such event has arrived it stays
cleared. The part_001 variant lacks the loading guard (see counterexample). -/
theorem C7_loading_until_session_resolved :
    render_app initialState = Screen.loadingScreen ∧
    initialState.loading = true ∧
    (∀ e : AuthEvent, ∀ evs : List AuthEvent,
      (List.foldl authStep_app initialState (e :: evs)).loading = false) ∧
    startupActions.count RemoteAction.getSession = 1 := by
  refine ⟨rfl, rfl, ?_, by decide⟩
  intro e evs
  exact foldl_authStep_loading evs (authStep_app initialState e)
    (authStep_app_clears_loading initialState e)

/-- C9: the upload handler invoked with no file selected issues no storage
write, no profile write and no URL resolution, raises no alert, logs
nothing, leaves every state cell except the uploading flag unchanged, and
the uploading flag is false afterwards. -/
theorem C9_no_file_upload_noop (s : AppState) (uid : Nat)
    (storageRes profileRes : WriteResult) :
    (handleAvatarUpload_app s uid none storageRes profileRes).actions = [] ∧
    (handleAvatarUpload_app s uid none storageRes profileRes).alert = none ∧
    (handleAvatarUpload_app s uid none storageRes profileRes).log = none ∧
    (handleAvatarUpload_app s uid none storageRes profileRes).state.avatarUrl
      = s.avatarUrl ∧
    (handleAvatarUpload_app s uid none storageRes profileRes).state
      = { s with uploading := false } :=
  ⟨rfl, rfl, rfl, rfl, rfl⟩

/-- C10: adding a row with an empty name field issues no insert and changes
nothing; the handler never writes the instruments cache on any path; and on a
successful insert only the name field is cleared. -/
theorem C10_add_instrument_frame (s : AppState) (uid : Nat) (res : WriteResult) :
    handleAddInstrument { s with instrumentName := "" } uid res
      = ⟨{ s with instrumentName := "" }, none, none, []⟩ ∧
    (handleAddInstrument s uid res).state.instruments = s.instruments ∧
    (s.instrumentName ≠ "" →
      handleAddInstrument s uid .ok
        = ⟨{ s with instrumentName := "" }, none, none,
           [.insertRow s.instrumentName uid]⟩) := by
  refine ⟨?_, ?_, ?_⟩
  · simp [handleAddInstrument]
  · by_cases h : s.instrumentName = ""
    · simp [handleAddInstrument, h]
    · cases res <;> simp [handleAddInstrument, h]
  · intro h
    simp [handleAddInstrument, h]

/-- C10 witness: the success path evaluated on a concrete state. -/
theorem C10_add_instrument_frame_witness :
    handleAddInstrument { demoState with instrumentName := "flute" } 7 .ok
      = ⟨{ { demoState with instrumentName := "flute" } with instrumentName := "" },
         none, none, [RemoteAction.insertRow "flute" 7]⟩ :=
  (C10_add_instrument_frame { demoState with instrumentName := "flute" } 7 .ok).2.2
    (by decide)

end SupabaseApp
